import Mathlib

/-!
Shallow embedding of the kanji REST backend (server.js, models/Kanji.js,
and the data-import script) and proofs about its route handlers.

The store (MongoDB via Mongoose) is modelled as a list of documents plus
a fresh-identifier counter.  Object identifiers are modelled as natural
numbers; an identifier string is well formed when it parses as a numeral,
and a string that does not parse models a malformed ObjectId (Mongoose
raises a CastError in that case).
-/

/-- One persisted kanji document.  Field names follow the schema in
models/Kanji.js: `Kanji` is the character (unique, non-empty by the
`required` validator), the other three default to the empty string. -/
structure KanjiDoc where
  _id : Nat
  Kanji : String
  Onyomi : String
  Kunyomi : String
  Meaning : String
deriving DecidableEq, Repr

/-- The four schema fields of a document, without the store identifier. -/
structure KanjiFields where
  Kanji : String
  Onyomi : String
  Kunyomi : String
  Meaning : String
deriving DecidableEq, Repr

/-- Projection of a document onto its schema fields. -/
def KanjiDoc.fields (d : KanjiDoc) : KanjiFields :=
  ⟨d.Kanji, d.Onyomi, d.Kunyomi, d.Meaning⟩

/-- The document collection together with the counter the store uses to
assign fresh identifiers. -/
structure Store where
  docs : List KanjiDoc
  nextId : Nat
deriving DecidableEq, Repr

/-- Store-layer failures, as the Express error handler distinguishes
them: a Mongoose ValidationError (name "ValidationError"), a duplicate
key error (code 11000, with the offending key pattern), a CastError from
a malformed ObjectId, and anything else. -/
inductive DbError where
  | validation (errors : List String)
  | duplicateKey (duplicateField : String)
  | cast (value : String)
  | other (message : String)
deriving DecidableEq, Repr

/-- The message carried by an error (err.message in the handler). -/
def DbError.errMessage : DbError → String
  | .validation _ => "Validation failed"
  | .duplicateKey _ => "E11000 duplicate key error"
  | .cast v => "Cast to ObjectId failed for value " ++ v
  | .other m => m

/-- JSON response bodies produced by the handlers. -/
inductive RespBody where
  | record (d : KanjiDoc)
  | records (ds : List KanjiDoc)
  | message (m : String)
  | withErrors (m : String) (errors : List String)
  | withDupField (m : String) (duplicateField : String)
  | withDetail (m : String) (error : String)
  | deleted (deletedCount : Nat)
  | raw (body : String)
deriving DecidableEq, Repr

/-- An HTTP response: status code plus JSON body. -/
structure Resp where
  status : Nat
  body : RespBody
deriving DecidableEq, Repr

/-- A JSON request body, modelled as an association list of string
properties; lookup of an absent key models an undefined property. -/
def Body := List (String × String)

/-- Property lookup on a request body (req.body.key). -/
def bodyGet (b : Body) (key : String) : Option String :=
  (List.find? (fun p => p.fst == key) b).map (fun p => p.snd)

/-- The centralized error-handling middleware (errorHandler in
server.js): ValidationError maps to 400 with the field messages,
code 11000 maps to 409 naming the duplicate field, and everything else
maps to 500, exposing err.message only in development mode. -/
def errorHandler (dev : Bool) (err : DbError) : Resp :=
  match err with
  | .validation errors => ⟨400, .withErrors "Validation Error" errors⟩
  | .duplicateKey f => ⟨409, .withDupField "Duplicate key error" f⟩
  | e => ⟨500, .withDetail "Internal Server Error"
      (if dev then e.errMessage else "Something went wrong")⟩

/-- Identifier-string parsing: a non-empty string of digits models a
well-formed ObjectId, anything else is malformed and raises a CastError
in findById. -/
def parseObjectId (idStr : String) : Option Nat :=
  if idStr.data ≠ [] ∧ idStr.data.all (fun c => c.isDigit) then
    some (idStr.data.foldl (fun n c => n * 10 + (c.toNat - 48)) 0)
  else none

/-- Kanji.findById: throws a CastError on a malformed identifier,
otherwise returns the matching document or none. -/
def findById (s : Store) (idStr : String) : Except DbError (Option KanjiDoc) :=
  match parseObjectId idStr with
  | none => .error (.cast idStr)
  | some n => .ok (List.find? (fun d => d._id == n) s.docs)

/-- Saving a newly constructed document (kanji.save() in the POST
handler): the `required` validator rejects an absent or empty character,
the unique index rejects a character already present, otherwise the
store assigns the next identifier and appends the document. -/
def saveNew (s : Store) (d : KanjiDoc) : Except DbError Store :=
  if d.Kanji = "" then
    .error (.validation ["Path Kanji is required."])
  else if s.docs.any (fun x => x.Kanji == d.Kanji) then
    .error (.duplicateKey "Kanji")
  else
    .ok ⟨s.docs ++ [d], s.nextId + 1⟩

/-- Saving a modified existing document (kanji.save() in the PUT
handler): validation as for creation; the unique index conflicts only
with OTHER documents. -/
def saveExisting (s : Store) (d : KanjiDoc) : Except DbError Store :=
  if d.Kanji = "" then
    .error (.validation ["Path Kanji is required."])
  else if s.docs.any (fun x => x._id != d._id && x.Kanji == d.Kanji) then
    .error (.duplicateKey "Kanji")
  else
    .ok ⟨s.docs.map (fun x => if x._id = d._id then d else x), s.nextId⟩

/-- The document the POST handler constructs from the request body: it
reads exactly the four schema properties; absent readings and meaning
take the schema default "", an absent character stays empty and fails
validation at save. -/
def newKanjiDoc (s : Store) (b : Body) : KanjiDoc :=
  { _id := s.nextId
    Kanji := (bodyGet b "Kanji").getD ""
    Onyomi := (bodyGet b "Onyomi").getD ""
    Kunyomi := (bodyGet b "Kunyomi").getD ""
    Meaning := (bodyGet b "Meaning").getD "" }

/-- POST /api/kanji: build the document from the body, save it, answer
201 with the saved record, or forward the failure to errorHandler. -/
def postRoute (s : Store) (b : Body) (dev : Bool) : Resp × Store :=
  let d := newKanjiDoc s b
  match saveNew s d with
  | .ok s2 => (⟨201, .record d⟩, s2)
  | .error e => (errorHandler dev e, s)

/-- GET /api/kanji/:id: 404 when the identifier resolves to nothing,
the record otherwise; a thrown CastError goes to errorHandler. -/
def getByIdRoute (s : Store) (idStr : String) (dev : Bool) : Resp × Store :=
  match findById s idStr with
  | .error e => (errorHandler dev e, s)
  | .ok none => (⟨404, .message "Kanji not found"⟩, s)
  | .ok (some d) => (⟨200, .record d⟩, s)

/-- Object.assign(kanji, req.body) restricted to the schema paths (the
strict schema discards unknown paths at save): each of the four fields
present in the body overwrites the document field, the rest keep their
current values. -/
def applyBody (d : KanjiDoc) (b : Body) : KanjiDoc :=
  { d with
    Kanji := (bodyGet b "Kanji").getD d.Kanji
    Onyomi := (bodyGet b "Onyomi").getD d.Onyomi
    Kunyomi := (bodyGet b "Kunyomi").getD d.Kunyomi
    Meaning := (bodyGet b "Meaning").getD d.Meaning }

/-- PUT /api/kanji/:id: fetch, 404 when absent, merge the body into the
document, save, answer 200 with the updated record; failures (cast,
validation, duplicate key) go to errorHandler. -/
def putRoute (s : Store) (idStr : String) (b : Body) (dev : Bool) : Resp × Store :=
  match findById s idStr with
  | .error e => (errorHandler dev e, s)
  | .ok none => (⟨404, .message "Kanji not found"⟩, s)
  | .ok (some d) =>
    let d2 := applyBody d b
    match saveExisting s d2 with
    | .ok s2 => (⟨200, .record d2⟩, s2)
    | .error e => (errorHandler dev e, s)

/-- DELETE /api/kanji/:id: fetch, 404 when absent, otherwise remove the
document and confirm. -/
def deleteRoute (s : Store) (idStr : String) (dev : Bool) : Resp × Store :=
  match findById s idStr with
  | .error e => (errorHandler dev e, s)
  | .ok none => (⟨404, .message "Kanji not found"⟩, s)
  | .ok (some d) =>
    (⟨200, .message "Kanji deleted successfully"⟩,
     ⟨s.docs.filter (fun x => x._id != d._id), s.nextId⟩)

/-- What Kanji.find() handed to the GET-all handler: normally an array
of documents, but the handler defends against a non-array reply, and a
thrown store failure reaches the catch block. -/
inductive FindReply where
  | arr (docs : List KanjiDoc)
  | nonArray (typeName : String)
  | failure (e : DbError)
deriving DecidableEq, Repr

/-- GET /api/kanji: answer the array; a non-array reply is answered 500
directly by the handler itself; a thrown failure goes to errorHandler. -/
def getAllRoute (r : FindReply) (dev : Bool) : Resp :=
  match r with
  | .arr ds => ⟨200, .records ds⟩
  | .nonArray _ => ⟨500, .message "Internal server error: Invalid data type"⟩
  | .failure e => errorHandler dev e

/-- True exactly on the failures the error handler does not classify:
neither a ValidationError nor a duplicate-key error. -/
def DbError.isUnclassified : DbError → Bool
  | .validation _ => false
  | .duplicateKey _ => false
  | _ => true

/-- One record of the import source file (capstone.kanji.json): the four
text fields plus the store-specific identifier the export may carry,
which the importer strips. -/
structure RawItem where
  mongoId : Option String
  Kanji : String
  Onyomi : String
  Kunyomi : String
  Meaning : String
deriving DecidableEq, Repr

/-- The importer transform: keep exactly the four schema fields,
dropping any store-specific identifier. -/
def transformItem (i : RawItem) : KanjiFields :=
  ⟨i.Kanji, i.Onyomi, i.Kunyomi, i.Meaning⟩

/-- Ordered server-side insertion for insertMany: documents are inserted
one by one and the batch stops at the first unique-index conflict,
leaving the documents inserted so far in place. -/
def insertManyGo (s : Store) : List KanjiFields → Store × Option DbError
  | [] => (s, none)
  | f :: rest =>
    if s.docs.any (fun x => x.Kanji == f.Kanji) then
      (s, some (.duplicateKey "Kanji"))
    else
      insertManyGo ⟨s.docs ++ [⟨s.nextId, f.Kanji, f.Onyomi, f.Kunyomi, f.Meaning⟩], s.nextId + 1⟩ rest

/-- Kanji.insertMany: Mongoose validates every document first (an
invalid one aborts the batch before anything is sent), then the server
inserts in order until a duplicate-key conflict. -/
def insertMany (s : Store) (fs : List KanjiFields) : Store × Option DbError :=
  if fs.any (fun f => f.Kanji == "") then
    (s, some (.validation ["Path Kanji is required."]))
  else
    insertManyGo s fs

/-- importData from the import script: transform the parsed file
contents, clear the collection with deleteMany, then bulk-insert.  The
Bool reports success; any failure aborts the job (process.exit(1)). -/
def importData (input : List RawItem) (s : Store) : Store × Bool :=
  let transformedData := input.map transformItem
  let cleared : Store := ⟨[], s.nextId⟩
  match insertMany cleared transformedData with
  | (s2, none) => (s2, true)
  | (s2, some _) => (s2, false)

/-- Modelled from the spec: the fixed built-in default set of ten common
records used by the random-sample route, which is absent from src (only
the spec describes GET /api/kanji/random). -/
def defaultKanjiSet : List KanjiDoc :=
  [⟨0, "日", "ニチ", "ひ", "day"⟩,
   ⟨1, "月", "ゲツ", "つき", "month"⟩,
   ⟨2, "火", "カ", "ひ", "fire"⟩,
   ⟨3, "水", "スイ", "みず", "water"⟩,
   ⟨4, "木", "モク", "き", "tree"⟩,
   ⟨5, "金", "キン", "かね", "gold"⟩,
   ⟨6, "土", "ド", "つち", "earth"⟩,
   ⟨7, "人", "ジン", "ひと", "person"⟩,
   ⟨8, "山", "サン", "やま", "mountain"⟩,
   ⟨9, "川", "セン", "かわ", "river"⟩]

/-- Response of the random-sample route: the sampled records and the
flag telling whether they came from the default set. -/
structure SampleResult where
  kanji : List KanjiDoc
  isDefaultSet : Bool
deriving DecidableEq, Repr

/-- Modelled from the spec: GET /api/kanji/random, absent from src.  On
an empty collection it returns `limit` items of the shuffled default
set, flagged isDefaultSet; otherwise min(limit, collectionSize) records
sampled without replacement.  The shuffle outcome is passed in as the
`shuffled` argument (a permutation of the default set, respectively of
the collection), so the function itself is deterministic. -/
def randomSample (limit : Nat) (shuffled : List KanjiDoc) (s : Store) : SampleResult :=
  if s.docs.isEmpty then
    { kanji := shuffled.take limit, isDefaultSet := true }
  else
    { kanji := shuffled.take (min limit s.docs.length), isDefaultSet := false }

/-- Modelled from the spec: DELETE /api/kanji (delete-all), absent from
src.  Removes every record and reports the count removed. -/
def deleteAllRoute (s : Store) : Resp × Store :=
  (⟨200, .deleted s.docs.length⟩, ⟨[], s.nextId⟩)

/-- Hexadecimal digit of a value below 16, upper case. -/
def toHexDigit (n : Nat) : Char :=
  if n < 10 then Char.ofNat (48 + n) else Char.ofNat (55 + n)

/-- Percent-encoding of one byte. -/
def percentByte (b : Nat) : String :=
  String.mk ['%', toHexDigit (b / 16), toHexDigit (b % 16)]

/-- UTF-8 bytes of a code point. -/
def utf8Bytes (n : Nat) : List Nat :=
  if n < 128 then [n]
  else if n < 2048 then [192 + n / 64, 128 + n % 64]
  else if n < 65536 then [224 + n / 4096, 128 + (n / 64) % 64, 128 + n % 64]
  else [240 + n / 262144, 128 + (n / 4096) % 64, 128 + (n / 64) % 64, 128 + n % 64]

/-- Modelled from the spec: URL-encoding of the query
(encodeURIComponent): unreserved characters pass through, every other
character is percent-encoded byte by byte. -/
def urlEncode (q : String) : String :=
  q.data.foldl
    (fun acc c =>
      if c.isAlphanum || c == '-' || c == '_' || c == '.' || c == '~' then acc.push c
      else (utf8Bytes c.toNat).foldl (fun a b => a ++ percentByte b) acc)
    ""

/-- Reply of the external word-lookup service: a response body, or a
transport or upstream failure. -/
inductive UpstreamReply where
  | ok (body : String)
  | failed (message : String)
deriving DecidableEq, Repr

/-- Modelled from the spec: GET /api/dictionary/search, absent from src.
An empty or missing query is a bad request; otherwise the URL-encoded
query is forwarded to the upstream service (passed in as a function) and
its body returned verbatim; an upstream failure is surfaced as a generic
failure through the centralized error mapper. -/
def dictionarySearchRoute (query : Option String) (upstream : String → UpstreamReply)
    (dev : Bool) : Resp :=
  match query with
  | none => ⟨400, .message "Query parameter is required"⟩
  | some q =>
    if q = "" then ⟨400, .message "Query parameter is required"⟩
    else
      match upstream (urlEncode q) with
      | .ok body => ⟨200, .raw body⟩
      | .failed m => errorHandler dev (.other m)

/-- Observable startup events of startServer in server.js. -/
inductive StartEvent where
  | connected
  | listening
  | exited (code : Nat)
deriving DecidableEq, Repr

/-- startServer: await the store connection; only then bind the
listener; a connection failure falls to the catch block, which logs and
exits with status 1 without ever listening. -/
def startServer (connectOk : Bool) : List StartEvent :=
  if connectOk then [.connected, .listening] else [.exited 1]

theorem saveNew_ok (s : Store) (d : KanjiDoc) (h1 : d.Kanji ≠ "")
    (h2 : ∀ x ∈ s.docs, x.Kanji ≠ d.Kanji) :
    saveNew s d = .ok ⟨s.docs ++ [d], s.nextId + 1⟩ := by
  unfold saveNew
  rw [if_neg h1, if_neg]
  simp only [List.any_eq_true, beq_iff_eq, not_exists, not_and]
  exact h2

theorem saveNew_validation (s : Store) (d : KanjiDoc) (h : d.Kanji = "") :
    saveNew s d = .error (.validation ["Path Kanji is required."]) := by
  unfold saveNew
  rw [if_pos h]

theorem saveNew_dup (s : Store) (d : KanjiDoc) (h1 : d.Kanji ≠ "")
    (h2 : ∃ x ∈ s.docs, x.Kanji = d.Kanji) :
    saveNew s d = .error (.duplicateKey "Kanji") := by
  unfold saveNew
  rw [if_neg h1, if_pos]
  simp only [List.any_eq_true, beq_iff_eq]
  exact h2

theorem newKanjiDoc_Kanji (s : Store) (b : Body) :
    (newKanjiDoc s b).Kanji = (bodyGet b "Kanji").getD "" := rfl

/-- C1: the create route persists a record whose character is present,
non-empty and new, answering 201 with the record carrying the assigned
identifier; an absent or empty character yields the 400 validation error
and leaves the store unchanged; an already-present character yields the
409 duplicate-key error and leaves the store unchanged. -/
theorem create_route_spec (s : Store) (b : Body) (dev : Bool) :
    (((bodyGet b "Kanji").getD "" ≠ "" ∧
        (∀ x ∈ s.docs, x.Kanji ≠ (bodyGet b "Kanji").getD "")) →
      postRoute s b dev =
        (⟨201, .record (newKanjiDoc s b)⟩,
         ⟨s.docs ++ [newKanjiDoc s b], s.nextId + 1⟩)) ∧
    ((bodyGet b "Kanji").getD "" = "" →
      (postRoute s b dev).fst =
          errorHandler dev (.validation ["Path Kanji is required."]) ∧
        (postRoute s b dev).fst.status = 400 ∧
        (postRoute s b dev).snd = s) ∧
    (((bodyGet b "Kanji").getD "" ≠ "" ∧
        (∃ x ∈ s.docs, x.Kanji = (bodyGet b "Kanji").getD "")) →
      (postRoute s b dev).fst =
          errorHandler dev (.duplicateKey "Kanji") ∧
        (postRoute s b dev).fst.status = 409 ∧
        (postRoute s b dev).snd = s) := by
  refine ⟨?_, ?_, ?_⟩
  · rintro ⟨h1, h2⟩
    rw [← newKanjiDoc_Kanji s b] at h1
    simp only [← newKanjiDoc_Kanji s b] at h2
    simp only [postRoute]
    rw [saveNew_ok s (newKanjiDoc s b) h1 h2]
  · intro h
    rw [← newKanjiDoc_Kanji s b] at h
    simp only [postRoute]
    rw [saveNew_validation s (newKanjiDoc s b) h]
    exact ⟨rfl, rfl, rfl⟩
  · rintro ⟨h1, h2⟩
    rw [← newKanjiDoc_Kanji s b] at h1
    simp only [← newKanjiDoc_Kanji s b] at h2
    simp only [postRoute]
    rw [saveNew_dup s (newKanjiDoc s b) h1 h2]
    exact ⟨rfl, rfl, rfl⟩

/-- C1 witness: creating 水 in an empty store answers 201 and appends
the record with identifier 0. -/
theorem create_route_spec_witness :
    postRoute ⟨[], 0⟩ [("Kanji", "水")] false =
      (⟨201, .record ⟨0, "水", "", "", ""⟩⟩, ⟨[⟨0, "水", "", "", ""⟩], 1⟩) := by
  have h := (create_route_spec ⟨[], 0⟩ [("Kanji", "水")] false).1 (by decide)
  simpa using h

/-- C10: two create bodies agreeing on the four schema properties
produce identical responses and stores; any other property, a
client-supplied identifier included, has no effect on the created
record. -/
theorem create_ignores_extra_fields (s : Store) (b1 b2 : Body) (dev : Bool)
    (hk : bodyGet b1 "Kanji" = bodyGet b2 "Kanji")
    (ho : bodyGet b1 "Onyomi" = bodyGet b2 "Onyomi")
    (hu : bodyGet b1 "Kunyomi" = bodyGet b2 "Kunyomi")
    (hm : bodyGet b1 "Meaning" = bodyGet b2 "Meaning") :
    postRoute s b1 dev = postRoute s b2 dev := by
  have hd : newKanjiDoc s b1 = newKanjiDoc s b2 := by
    simp [newKanjiDoc, hk, ho, hu, hm]
  simp only [postRoute, hd]

/-- C10 witness: a body carrying an extra identifier and a junk
property creates exactly what the bare body creates. -/
theorem create_ignores_extra_fields_witness :
    postRoute ⟨[], 0⟩ [("Kanji", "水"), ("_id", "42"), ("junk", "x")] false =
      postRoute ⟨[], 0⟩ [("Kanji", "水")] false :=
  create_ignores_extra_fields ⟨[], 0⟩ _ _ false (by decide) (by decide)
    (by decide) (by decide)

/-- C2 counterexample: fetching with the malformed identifier "xyz"
answers 500 (the CastError falls to the default branch of the error
handler), not 404 as the claim states. -/
theorem malformed_id_not_404 :
    (getByIdRoute ⟨[], 0⟩ "xyz" false).fst.status = 500 ∧
    ¬ (getByIdRoute ⟨[], 0⟩ "xyz" false).fst.status = 404 := by decide

/-- C2 (amended): a well-formed identifier matching no stored document
answers 404 from get, update and delete-one, each leaving the store
unchanged; a malformed identifier instead answers 500 through the
centralized mapper (CastError), likewise leaving the store unchanged. -/
theorem unresolved_id_responses (s : Store) (idStr : String) (b : Body) (dev : Bool) :
    (∀ n, parseObjectId idStr = some n → (∀ x ∈ s.docs, x._id ≠ n) →
      getByIdRoute s idStr dev = (⟨404, .message "Kanji not found"⟩, s) ∧
      putRoute s idStr b dev = (⟨404, .message "Kanji not found"⟩, s) ∧
      deleteRoute s idStr dev = (⟨404, .message "Kanji not found"⟩, s)) ∧
    (parseObjectId idStr = none →
      getByIdRoute s idStr dev = (errorHandler dev (.cast idStr), s) ∧
      putRoute s idStr b dev = (errorHandler dev (.cast idStr), s) ∧
      deleteRoute s idStr dev = (errorHandler dev (.cast idStr), s) ∧
      (errorHandler dev (.cast idStr)).status = 500) := by
  constructor
  · intro n hp habs
    have hn : List.find? (fun d => d._id == n) s.docs = none := by
      rw [List.find?_eq_none]
      intro x hx
      simpa using habs x hx
    have hf : findById s idStr = Except.ok none := by
      simp [findById, hp, hn]
    refine ⟨?_, ?_, ?_⟩ <;> simp [getByIdRoute, putRoute, deleteRoute, hf]
  · intro hp
    have hf : findById s idStr = Except.error (.cast idStr) := by
      simp [findById, hp]
    refine ⟨?_, ?_, ?_, ?_⟩ <;>
      simp [getByIdRoute, putRoute, deleteRoute, hf, errorHandler]

/-- C2 witness: identifier 5 is absent from the empty store and gets a
404; the malformed identifier "xyz" gets a 500. -/
theorem unresolved_id_responses_witness :
    getByIdRoute ⟨[], 0⟩ "5" false = (⟨404, .message "Kanji not found"⟩, (⟨[], 0⟩ : Store)) ∧
    (getByIdRoute ⟨[], 5⟩ "xyz" false).fst.status = 500 := by
  constructor
  · exact ((unresolved_id_responses ⟨[], 0⟩ "5" [] false).1 5 (by decide) (by decide)).1
  · have h := (unresolved_id_responses ⟨[], 5⟩ "xyz" [] false).2 (by decide)
    rw [h.1]
    exact h.2.2.2

/-- C3 counterexample: updating record 0 (character "a") with the body
setting Kanji to "b", while record 1 already holds "b", does not
overwrite the field as the claim states: the route answers 409 and the
store, record 0 included, is unchanged. -/
theorem put_duplicate_key_cex :
    (putRoute ⟨[⟨0, "a", "", "", ""⟩, ⟨1, "b", "", "", ""⟩], 2⟩ "0"
        [("Kanji", "b")] false).fst.status = 409 ∧
    (putRoute ⟨[⟨0, "a", "", "", ""⟩, ⟨1, "b", "", "", ""⟩], 2⟩ "0"
        [("Kanji", "b")] false).snd =
      ⟨[⟨0, "a", "", "", ""⟩, ⟨1, "b", "", "", ""⟩], 2⟩ := by decide

/-- C3 (amended): provided the merged record keeps a non-empty and
unique character — which holds in particular for the empty body — the
update answers 200 with the merged record, overwrites exactly the
fields supplied in the body, leaves every other field of the record and
every other record unchanged, and the empty body leaves the store
identical; a merge violating validation or uniqueness is answered 400
or 409 with the store unchanged (see the counterexample). -/
theorem put_partial_update (s : Store) (idStr : String) (b : Body) (dev : Bool)
    (n : Nat) (d : KanjiDoc)
    (hnodup : (s.docs.map KanjiDoc._id).Nodup)
    (hp : parseObjectId idStr = some n)
    (hfind : List.find? (fun x => x._id == n) s.docs = some d)
    (hval : (applyBody d b).Kanji ≠ "")
    (huniq : ∀ x ∈ s.docs, x._id ≠ d._id → x.Kanji ≠ (applyBody d b).Kanji) :
    putRoute s idStr b dev =
      (⟨200, .record (applyBody d b)⟩,
       ⟨s.docs.map (fun x => if x._id = d._id then applyBody d b else x), s.nextId⟩) ∧
    (bodyGet b "Kanji" = none → (applyBody d b).Kanji = d.Kanji) ∧
    (∀ v, bodyGet b "Kanji" = some v → (applyBody d b).Kanji = v) ∧
    (bodyGet b "Onyomi" = none → (applyBody d b).Onyomi = d.Onyomi) ∧
    (∀ v, bodyGet b "Onyomi" = some v → (applyBody d b).Onyomi = v) ∧
    (bodyGet b "Kunyomi" = none → (applyBody d b).Kunyomi = d.Kunyomi) ∧
    (∀ v, bodyGet b "Kunyomi" = some v → (applyBody d b).Kunyomi = v) ∧
    (bodyGet b "Meaning" = none → (applyBody d b).Meaning = d.Meaning) ∧
    (∀ v, bodyGet b "Meaning" = some v → (applyBody d b).Meaning = v) ∧
    ((applyBody d b)._id = d._id) ∧
    (∀ x ∈ s.docs, x._id ≠ d._id → x ∈ (putRoute s idStr b dev).snd.docs) ∧
    (b = [] → putRoute s idStr b dev = (⟨200, .record d⟩, s)) := by
  have hf : findById s idStr = Except.ok (some d) := by
    simp [findById, hp, hfind]
  have hid : (applyBody d b)._id = d._id := rfl
  have hcond : s.docs.any
      (fun x => x._id != d._id && x.Kanji == (applyBody d b).Kanji) = false := by
    rw [List.any_eq_false]
    intro x hx
    simp only [Bool.and_eq_true, bne_iff_ne, beq_iff_eq, not_and]
    exact fun hne => huniq x hx hne
  have hs : saveExisting s (applyBody d b) =
      Except.ok ⟨s.docs.map (fun x => if x._id = d._id then applyBody d b else x), s.nextId⟩ := by
    unfold saveExisting
    rw [if_neg hval]
    simp only [hid, hcond, Bool.false_eq_true, if_false]
  have hput : putRoute s idStr b dev =
      (⟨200, .record (applyBody d b)⟩,
       ⟨s.docs.map (fun x => if x._id = d._id then applyBody d b else x), s.nextId⟩) := by
    simp [putRoute, hf, hs]
  refine ⟨hput, ?_, ?_, ?_, ?_, ?_, ?_, ?_, ?_, hid, ?_, ?_⟩
  · intro h; simp [applyBody, h]
  · intro v h; simp [applyBody, h]
  · intro h; simp [applyBody, h]
  · intro v h; simp [applyBody, h]
  · intro h; simp [applyBody, h]
  · intro v h; simp [applyBody, h]
  · intro h; simp [applyBody, h]
  · intro v h; simp [applyBody, h]
  · intro x hx hxne
    rw [hput]
    have : (if x._id = d._id then applyBody d b else x) ∈
        s.docs.map (fun y => if y._id = d._id then applyBody d b else y) :=
      List.mem_map_of_mem _ hx
    rwa [if_neg hxne] at this
  · intro hb
    subst hb
    have happ : applyBody d [] = d := rfl
    rw [hput, happ]
    have hdm : d ∈ s.docs := List.mem_of_find?_eq_some hfind
    have hmap : s.docs.map (fun x => if x._id = d._id then d else x) = s.docs := by
      have : ∀ x ∈ s.docs, (fun x => if x._id = d._id then d else x) x = id x := by
        intro x hx
        by_cases hxe : x._id = d._id
        · have hxd : x = d :=
            List.inj_on_of_nodup_map hnodup hx hdm hxe
          simp [hxe, hxd]
        · simp [hxe]
      rw [List.map_congr_left this, List.map_id]
    rw [hmap]

/-- C3 witness: the concrete scenario of the spec, updating only the
meaning of 水 leaves identifier, character and readings unchanged. -/
theorem put_partial_update_witness :
    putRoute ⟨[⟨0, "水", "スイ", "みず", "water"⟩], 1⟩ "0"
        [("Meaning", "liquid water")] false =
      (⟨200, .record ⟨0, "水", "スイ", "みず", "liquid water"⟩⟩,
       ⟨[⟨0, "水", "スイ", "みず", "liquid water"⟩], 1⟩) := by
  have h := (put_partial_update ⟨[⟨0, "水", "スイ", "みず", "water"⟩], 1⟩ "0"
      [("Meaning", "liquid water")] false 0 ⟨0, "水", "スイ", "みず", "water"⟩
      (by decide) (by decide) (by decide) (by decide) (by decide)).1
  simpa using h

/-- C4: the random-sample operation on an empty collection returns
min(L, 10) items, all drawn from the default set, flagged as the
default set; on a non-empty collection of size S it returns min(L, S)
distinct records, each present in the collection, not flagged. -/
theorem random_sample_spec (L : Nat) (_hL : 0 < L) (s : Store) (shuffled : List KanjiDoc) :
    (s.docs = [] → shuffled.Perm defaultKanjiSet →
      (randomSample L shuffled s).kanji.length = min L 10 ∧
      (∀ x ∈ (randomSample L shuffled s).kanji, x ∈ defaultKanjiSet) ∧
      (randomSample L shuffled s).isDefaultSet = true) ∧
    (s.docs ≠ [] → shuffled.Perm s.docs → s.docs.Nodup →
      (randomSample L shuffled s).kanji.length = min L s.docs.length ∧
      (∀ x ∈ (randomSample L shuffled s).kanji, x ∈ s.docs) ∧
      (randomSample L shuffled s).kanji.Nodup ∧
      (randomSample L shuffled s).isDefaultSet = false) := by
  constructor
  · intro he hperm
    have hr : randomSample L shuffled s = ⟨shuffled.take L, true⟩ := by
      simp [randomSample, he]
    rw [hr]
    refine ⟨?_, ?_, rfl⟩
    · rw [List.length_take, hperm.length_eq]
      rfl
    · intro x hx
      exact hperm.mem_iff.mp (List.mem_of_mem_take hx)
  · intro hne hperm hnd
    have hr : randomSample L shuffled s =
        ⟨shuffled.take (min L s.docs.length), false⟩ := by
      simp [randomSample, hne]
    rw [hr]
    refine ⟨?_, ?_, ?_, rfl⟩
    · rw [List.length_take, hperm.length_eq, Nat.min_assoc, Nat.min_self]
    · intro x hx
      exact hperm.mem_iff.mp (List.mem_of_mem_take hx)
    · exact (List.take_sublist _ _).nodup (hperm.nodup_iff.mpr hnd)

/-- C4 witness: limit 3 on an empty collection yields 3 items of the
default set, flagged as default. -/
theorem random_sample_spec_witness :
    (randomSample 3 defaultKanjiSet ⟨[], 0⟩).kanji.length = min 3 10 ∧
    (∀ x ∈ (randomSample 3 defaultKanjiSet ⟨[], 0⟩).kanji, x ∈ defaultKanjiSet) ∧
    (randomSample 3 defaultKanjiSet ⟨[], 0⟩).isDefaultSet = true :=
  (random_sample_spec 3 (by decide) ⟨[], 0⟩ defaultKanjiSet).1 rfl (List.Perm.refl _)

/-- C5: delete-all reports deletedCount equal to the collection size,
empties the collection, and a subsequent list answers the empty array. -/
theorem delete_all_spec (s : Store) :
    (deleteAllRoute s).fst = ⟨200, .deleted s.docs.length⟩ ∧
    (deleteAllRoute s).snd.docs = [] ∧
    getAllRoute (.arr (deleteAllRoute s).snd.docs) false = ⟨200, .records []⟩ :=
  ⟨rfl, rfl, rfl⟩

/-- C6: dictionary search answers 400 when the query is missing or
empty; otherwise it forwards the URL-encoded query upstream and answers
200 with the upstream body verbatim, and surfaces an upstream failure
as the generic 500. -/
theorem dictionary_search_spec (query : Option String)
    (upstream : String → UpstreamReply) (dev : Bool) :
    ((query = none ∨ query = some "") →
      (dictionarySearchRoute query upstream dev).status = 400) ∧
    (∀ q, query = some q → q ≠ "" →
      (∀ bdy, upstream (urlEncode q) = .ok bdy →
        dictionarySearchRoute query upstream dev = ⟨200, .raw bdy⟩) ∧
      (∀ m, upstream (urlEncode q) = .failed m →
        (dictionarySearchRoute query upstream dev).status = 500)) := by
  constructor
  · rintro (h | h) <;> subst h <;> simp [dictionarySearchRoute]
  · intro q hq hne
    subst hq
    constructor
    · intro bdy hb
      simp [dictionarySearchRoute, hne, hb]
    · intro m hm
      simp [dictionarySearchRoute, hne, hm, errorHandler]

/-- C6 witness: a non-empty query is forwarded URL-encoded and the
upstream body comes back verbatim with 200. -/
theorem dictionary_search_spec_witness :
    dictionarySearchRoute (some "water") (fun p => .ok ("results for " ++ p)) false =
      ⟨200, .raw "results for water"⟩ :=
  ((dictionary_search_spec (some "water") (fun p => .ok ("results for " ++ p)) false).2
    "water" rfl (by decide)).1 "results for water" (by decide)

/-- C7 counterexample: the GET-all handler answers a non-array store
reply with a 500 response it builds itself; no input to the centralized
error handler produces that response, so this unclassified failure is
decided individually rather than funneled to the single mapper. -/
theorem list_nonarray_bypasses_mapper :
    ¬ ∃ e : DbError, getAllRoute (.nonArray "object") false = errorHandler false e := by
  rintro ⟨e, h⟩
  cases e <;> simp [getAllRoute, errorHandler] at h

/-- C7 (amended): thrown failures — the GET-all catch path and the
malformed-identifier CastError of the id routes — are answered exactly
by the centralized error handler, which maps every unclassified failure
to 500 exposing its message only in development mode; the one exception
is the GET-all defensive non-array branch, which the handler answers
itself with a fixed 500 body. -/
theorem centralized_error_mapping (dev : Bool) (e : DbError) (s : Store)
    (idStr : String) (b : Body) :
    getAllRoute (.failure e) dev = errorHandler dev e ∧
    (parseObjectId idStr = none →
      (getByIdRoute s idStr dev).fst = errorHandler dev (.cast idStr) ∧
      (putRoute s idStr b dev).fst = errorHandler dev (.cast idStr) ∧
      (deleteRoute s idStr dev).fst = errorHandler dev (.cast idStr)) ∧
    (e.isUnclassified = true →
      errorHandler dev e =
        ⟨500, .withDetail "Internal Server Error"
          (if dev then e.errMessage else "Something went wrong")⟩) ∧
    getAllRoute (.nonArray "object") dev =
      ⟨500, .message "Internal server error: Invalid data type"⟩ := by
  refine ⟨rfl, ?_, ?_, rfl⟩
  · intro hp
    have hf : findById s idStr = Except.error (.cast idStr) := by
      simp [findById, hp]
    exact ⟨by simp [getByIdRoute, hf], by simp [putRoute, hf], by simp [deleteRoute, hf]⟩
  · intro hu
    cases e <;> simp_all [DbError.isUnclassified, errorHandler]

/-- C7 witness: the malformed identifier "zzz" is mapped by the central
handler to 500, with the cast message exposed in development mode. -/
theorem centralized_error_mapping_witness :
    (getByIdRoute ⟨[], 0⟩ "zzz" true).fst =
      ⟨500, .withDetail "Internal Server Error"
        "Cast to ObjectId failed for value zzz"⟩ := by
  have h := centralized_error_mapping true (DbError.other "x") ⟨[], 0⟩ "zzz" []
  rw [(h.2.1 (by decide)).1]
  decide

theorem insertManyGo_fields (t : List KanjiFields) :
    ∀ s s' : Store, s.docs.map KanjiDoc.fields = s'.docs.map KanjiDoc.fields →
      ((insertManyGo s t).fst.docs.map KanjiDoc.fields =
        (insertManyGo s' t).fst.docs.map KanjiDoc.fields) ∧
      (insertManyGo s t).snd = (insertManyGo s' t).snd := by
  induction t with
  | nil => exact fun s s' h => ⟨h, rfl⟩
  | cons f rest ih =>
    intro s s' h
    have h1 : ∀ u : List KanjiDoc, (u.any fun x => x.Kanji == f.Kanji) =
        ((u.map KanjiDoc.fields).any fun y => y.Kanji == f.Kanji) := by
      intro u
      induction u with
      | nil => rfl
      | cons a l ihu => simp [ihu, KanjiDoc.fields]
    have hany : s.docs.any (fun x => x.Kanji == f.Kanji) =
        s'.docs.any (fun x => x.Kanji == f.Kanji) := by
      rw [h1 s.docs, h1 s'.docs, h]
    by_cases hc : s.docs.any (fun x => x.Kanji == f.Kanji) = true
    · have hc' : s'.docs.any (fun x => x.Kanji == f.Kanji) = true := hany ▸ hc
      simp only [insertManyGo, hc, hc', if_true]
      exact ⟨h, trivial⟩
    · have hc' : ¬ s'.docs.any (fun x => x.Kanji == f.Kanji) = true := hany ▸ hc
      simp only [insertManyGo, hc, hc', if_false]
      apply ih
      simp only [List.map_append, h]
      rfl

theorem insertMany_fields (fs : List KanjiFields) (s s' : Store)
    (h : s.docs.map KanjiDoc.fields = s'.docs.map KanjiDoc.fields) :
    ((insertMany s fs).fst.docs.map KanjiDoc.fields =
      (insertMany s' fs).fst.docs.map KanjiDoc.fields) ∧
    (insertMany s fs).snd = (insertMany s' fs).snd := by
  unfold insertMany
  by_cases hv : fs.any (fun f => f.Kanji == "") = true
  · simp only [hv, if_true]
    exact ⟨h, trivial⟩
  · simp only [hv, if_false]
    exact insertManyGo_fields fs s s' h

theorem importData_eq (input : List RawItem) (s : Store) :
    importData input s =
      ((insertMany ⟨[], s.nextId⟩ (input.map transformItem)).fst,
       (insertMany ⟨[], s.nextId⟩ (input.map transformItem)).snd.isNone) := by
  unfold importData
  rcases hr : insertMany ⟨[], s.nextId⟩ (input.map transformItem) with ⟨s2, e⟩
  cases e <;> simp [hr]

/-- C8: running the importer a second time yields the same final
collection contents (the four schema fields, modulo store-assigned
identifiers) and the same outcome as the first run: the importer clears
the collection and bulk-inserts the transformed input, so the result
depends only on the input file. -/
theorem import_idempotent (input : List RawItem) (s : Store) :
    ((importData input (importData input s).fst).fst.docs.map KanjiDoc.fields =
      (importData input s).fst.docs.map KanjiDoc.fields) ∧
    (importData input (importData input s).fst).snd = (importData input s).snd := by
  rw [importData_eq input s, importData_eq input _]
  have key := insertMany_fields (input.map transformItem)
    ⟨[], (insertMany ⟨[], s.nextId⟩ (input.map transformItem)).fst.nextId⟩
    ⟨[], s.nextId⟩ rfl
  exact ⟨key.1, by rw [key.2]⟩

/-- C9: startServer binds the listener only after the store connection
succeeded — every listening event is preceded by a connected event —
and a failed connection attempt exits with status 1 without ever
listening. -/
theorem startup_order (connectOk : Bool) :
    (∀ i : Nat, (startServer connectOk)[i]? = some StartEvent.listening →
      ∃ j : Nat, j < i ∧ (startServer connectOk)[j]? = some StartEvent.connected) ∧
    (connectOk = false →
      StartEvent.listening ∉ startServer connectOk ∧
      StartEvent.exited 1 ∈ startServer connectOk) := by
  cases connectOk
  · refine ⟨?_, fun _ => by decide⟩
    intro i hi
    match i, hi with
    | 0, hi => simp [startServer] at hi
    | k + 1, hi => simp [startServer] at hi
  · refine ⟨?_, fun h => absurd h (by decide)⟩
    intro i hi
    match i, hi with
    | 0, hi => simp [startServer] at hi
    | 1, hi => exact ⟨0, by decide, by simp [startServer]⟩
    | k + 2, hi => simp [startServer] at hi

/-- C9 witness: on a successful connection the listener (position 1)
is preceded by the connected event; on a failed connection the process
exits with status 1 and never listens. -/
theorem startup_order_witness :
    (∃ j : Nat, j < 1 ∧ (startServer true)[j]? = some StartEvent.connected) ∧
    StartEvent.listening ∉ startServer false ∧
    StartEvent.exited 1 ∈ startServer false :=
  ⟨(startup_order true).1 1 (by decide), (startup_order false).2 rfl⟩
